import Mathlib

/-!
Verification of the `vector3d` Rust crate (`src/lib.rs`) against its
natural-language specification.

The crate provides a single generic value type `Vector3d<T>` with
component-wise arithmetic, scalar multiply/divide, dot and cross products,
norm-squared, index-based access, iterator summation and `Display`
formatting.  We shallowly embed each operation as a Lean function
parametrized by the scalar operations it needs.  Using three distinct type
parameters `T`, `U`, `X` (mirroring the Rust trait bounds such as
`U: Mul<T, Output = X>`) makes operand order in every product meaningful
even for non-commutative scalar multiplication: the embedded `mul` function
takes the right-hand vector's component first, exactly as the source does.
-/

/-- The `Vector3d<T>` struct from `src/lib.rs`: three public fields
`x`, `y`, `z`, all of one scalar type `T`. -/
structure Vector3d (T : Type) where
  x : T
  y : T
  z : T
deriving Repr, DecidableEq

namespace Vector3d

/-- `Vector3d::new(x, y, z)`. -/
def new {T : Type} (x y z : T) : Vector3d T :=
  ⟨x, y, z⟩

/-- The derived `Default` impl for `Vector3d<T>`: every component is the
scalar type's default value `d`. -/
def default {T : Type} (d : T) : Vector3d T :=
  new d d d

/-- `Vector3d::dot`.  The Rust signature is
`dot<U: Mul<T, Output = X>, X: Add<Output = X>>(self, rhs: Vector3d<U>) -> X`;
the scalar multiplication `mul : U → T → X` takes the right-hand vector's
component as its first argument, and `+` associates to the left in Rust, so
the sum accumulates left to right. -/
def dot {T U X : Type} (mul : U → T → X) (add : X → X → X)
    (self : Vector3d T) (rhs : Vector3d U) : X :=
  add (add (mul rhs.x self.x) (mul rhs.y self.y)) (mul rhs.z self.z)

/-- The `Add` impl for `Vector3d<T>`: component-wise addition, with the
scalar type `T` required to add with itself producing itself. -/
def add {T : Type} (addT : T → T → T) (self rhs : Vector3d T) : Vector3d T :=
  new (addT self.x rhs.x) (addT self.y rhs.y) (addT self.z rhs.z)

/-- The `Sub` impl for `Vector3d<T>`: component-wise subtraction. -/
def sub {T : Type} (subT : T → T → T) (self rhs : Vector3d T) : Vector3d T :=
  new (subT self.x rhs.x) (subT self.y rhs.y) (subT self.z rhs.z)

/-- The `Neg` impl for `Vector3d<T>`: component-wise negation. -/
def neg {T : Type} (negT : T → T) (self : Vector3d T) : Vector3d T :=
  new (negT self.x) (negT self.y) (negT self.z)

/-- The `Mul<S>` impl for `Vector3d<T>`: the Rust bound is
`S: Clone, T: Mul<S, Output = X>`, so `mulTS : T → S → X` multiplies each
component (left factor) by one scalar `rhs` (right factor, cloned per
component), producing a `Vector3d<X>`. -/
def mul {T S X : Type} (mulTS : T → S → X) (self : Vector3d T) (rhs : S) :
    Vector3d X :=
  new (mulTS self.x rhs) (mulTS self.y rhs) (mulTS self.z rhs)

/-- The `Div<S>` impl for `Vector3d<T>`: each component divided by the one
scalar `rhs`, producing a `Vector3d<X>`. -/
def div {T S X : Type} (divTS : T → S → X) (self : Vector3d T) (rhs : S) :
    Vector3d X :=
  new (divTS self.x rhs) (divTS self.y rhs) (divTS self.z rhs)

/-- `Vector3d::cross`.  The Rust signature is
`cross<U: Clone + Mul<T, Output = X>, X: Add<Output = X> + Sub<Output = X>>`;
each product multiplies a `rhs` component (left factor, type `U`) by a
`self` component (right factor, type `T`), and the body only subtracts. -/
def cross {T U X : Type} (mul : U → T → X) (sub : X → X → X)
    (self : Vector3d T) (rhs : Vector3d U) : Vector3d X :=
  new
    (sub (mul rhs.z self.y) (mul rhs.y self.z))
    (sub (mul rhs.x self.z) (mul rhs.z self.x))
    (sub (mul rhs.y self.x) (mul rhs.x self.y))

/-- `Vector3d::norm2`: `self.x.clone() * self.x + self.y.clone() * self.y +
self.z.clone() * self.z`, with `T: Mul<T, Output = X>` and
`X: Add<Output = X>`, accumulated left to right. -/
def norm2 {T X : Type} (mul : T → T → X) (add : X → X → X)
    (self : Vector3d T) : X :=
  add (add (mul self.x self.x) (mul self.y self.y)) (mul self.z self.z)

/-- The `Sum<Vector3d<T>>` impl, on a finite sequence given as a list: if
the sequence has a first element, fold the remaining elements onto it with
vector `+` (component-wise `addT`); if the sequence is empty, each
component is the scalar type's own empty-iterator sum
(`None.into_iter().sum::<T>()`), written `emptySum`. -/
def sumList {T : Type} (addT : T → T → T) (emptySum : T) :
    List (Vector3d T) → Vector3d T
  | [] => new emptySum emptySum emptySum
  | first :: rest => rest.foldl (fun a b => add addT a b) first

/-- The `Index<usize>` impl: indices `0`, `1`, `2` select `x`, `y`, `z`;
any other index executes `panic!("Invalid index")`.  The panic is modelled
as `Except.error` carrying the panic message, so a fatal failure is
distinguishable from any returned value. -/
def index {T : Type} (v : Vector3d T) (i : Nat) : Except String T :=
  match i with
  | 0 => Except.ok v.x
  | 1 => Except.ok v.y
  | 2 => Except.ok v.z
  | _ => Except.error "Invalid index"

/-- The `IndexMut<usize>` impl, observed through a write: `index_mut`
returns a mutable reference to the selected component, so assigning through
it replaces exactly that component; an out-of-range index executes
`panic!("Invalid index")` before any write happens. -/
def indexSet {T : Type} (v : Vector3d T) (i : Nat) (k : T) :
    Except String (Vector3d T) :=
  match i with
  | 0 => Except.ok (new k v.y v.z)
  | 1 => Except.ok (new v.x k v.z)
  | 2 => Except.ok (new v.x v.y k)
  | _ => Except.error "Invalid index"

end Vector3d

/-!
Spec-side formulas.  These definitions follow the specification's words
(§4.2–§4.6 of `spec.md`), to be compared against the source-side
definitions above.
-/

/-- Spec formula for the cross product (§4.5): `out.x = rhs.z*self.y -
rhs.y*self.z`, `out.y = rhs.x*self.z - rhs.z*self.x`, `out.z = rhs.y*self.x -
rhs.x*self.y`, each product taking the right-hand-side component as the left
factor. -/
def crossSpecFormula {T U X : Type} (mul : U → T → X) (sub : X → X → X)
    (self : Vector3d T) (rhs : Vector3d U) : Vector3d X :=
  { x := sub (mul rhs.z self.y) (mul rhs.y self.z)
    y := sub (mul rhs.x self.z) (mul rhs.z self.x)
    z := sub (mul rhs.y self.x) (mul rhs.x self.y) }

/-- Spec formula for the dot product (§4.4): `rhs.x * self.x + rhs.y *
self.y + rhs.z * self.z`, products accumulated left to right. -/
def dotSpecFormula {T U X : Type} (mul : U → T → X) (add : X → X → X)
    (self : Vector3d T) (rhs : Vector3d U) : X :=
  add (add (mul rhs.x self.x) (mul rhs.y self.y)) (mul rhs.z self.z)

/-- Spec formula for the unit-preserving operators (§4.2):
`add(a, b) = (a.x+b.x, a.y+b.y, a.z+b.z)`. -/
def addSpecFormula {T : Type} (addT : T → T → T) (a b : Vector3d T) :
    Vector3d T :=
  { x := addT a.x b.x, y := addT a.y b.y, z := addT a.z b.z }

/-- Spec formula (§4.2): `sub(a, b) = (a.x-b.x, a.y-b.y, a.z-b.z)`. -/
def subSpecFormula {T : Type} (subT : T → T → T) (a b : Vector3d T) :
    Vector3d T :=
  { x := subT a.x b.x, y := subT a.y b.y, z := subT a.z b.z }

/-- Spec formula (§4.2): `neg(a) = (-a.x, -a.y, -a.z)`. -/
def negSpecFormula {T : Type} (negT : T → T) (a : Vector3d T) : Vector3d T :=
  { x := negT a.x, y := negT a.y, z := negT a.z }

/-- Spec formula (§4.3): `v * rhs = (v.x*rhs, v.y*rhs, v.z*rhs)` with the
scalar operand duplicated once per component. -/
def mulSpecFormula {T S X : Type} (mulTS : T → S → X) (v : Vector3d T)
    (rhs : S) : Vector3d X :=
  { x := mulTS v.x rhs, y := mulTS v.y rhs, z := mulTS v.z rhs }

/-- Spec formula (§4.3): `v / rhs = (v.x/rhs, v.y/rhs, v.z/rhs)`. -/
def divSpecFormula {T S X : Type} (divTS : T → S → X) (v : Vector3d T)
    (rhs : S) : Vector3d X :=
  { x := divTS v.x rhs, y := divTS v.y rhs, z := divTS v.z rhs }

/-- Spec formula (§4.6): `norm2 = x*x + y*y + z*z`. -/
def norm2SpecFormula {T X : Type} (mul : T → T → X) (add : X → X → X)
    (a : Vector3d T) : X :=
  add (add (mul a.x a.x) (mul a.y a.y)) (mul a.z a.z)

/-!
Display formatting (§4.8).  The source's `Display` impl inspects the
formatter's precision, width and alignment directives.  We model the
directives as an explicit record and the padding behaviour of Rust's
formatting engine (`{:<width$}` / `{:>width$}` / `{:^width$}` and
`Formatter::pad`) as explicit string functions.
-/

/-- Rust's `std::fmt::Alignment` (the name `Alignment` already exists in
the ambient library, hence the `Fmt` prefix). -/
inductive FmtAlignment where
  | left
  | right
  | center
deriving Repr, DecidableEq

/-- The formatting directives a caller may attach: an optional minimum
field width, an optional alignment, and an optional precision. -/
structure FmtSpec where
  width : Option Nat
  align : Option FmtAlignment
  precision : Option Nat

/-- A string of `n` spaces. -/
def spaces (n : Nat) : String :=
  String.mk (List.replicate n ' ')

/-- Pad `s` with spaces to at least `width` characters according to the
alignment: left alignment fills on the right, right alignment fills on the
left, and centering puts `padding / 2` spaces before and the rest after
(Rust's split for center alignment). -/
def padWith (align : FmtAlignment) (width : Nat) (s : String) : String :=
  if s.length ≥ width then s
  else
    let padding := width - s.length
    match align with
    | FmtAlignment.left => s ++ spaces padding
    | FmtAlignment.right => spaces padding ++ s
    | FmtAlignment.center =>
      let pre := padding / 2
      spaces pre ++ s ++ spaces (padding - pre)

/-- Rust's `Formatter::pad` for a string argument: first truncate to the
requested precision (if any), then pad to the requested width (if any),
defaulting to left alignment. -/
def fmtPad (f : FmtSpec) (s : String) : String :=
  let s2 :=
    match f.precision with
    | some p => if s.length > p then String.mk (s.toList.take p) else s
    | none => s
  match f.width with
  | some w => padWith (f.align.getD FmtAlignment.left) w s2
  | none => s2

/-- The `Display` impl for `Vector3d<T>` from `src/lib.rs`, parametrized by
the component type's own display rule `fmtT` (which receives the requested
precision, as Rust's `{:.decimals$}` does).  If a precision is requested,
the three components are each formatted with that precision, joined as
`"(x, y, z)"`, and the whole string is padded to the requested width with
the requested alignment (defaulting to left); with no precision the
components use their default rule and the whole string goes through
`Formatter::pad`. -/
def Vector3d.display {T : Type} (fmtT : Option Nat → T → String)
    (f : FmtSpec) (v : Vector3d T) : String :=
  match f.precision with
  | some decimals =>
    let s := "(" ++ fmtT (some decimals) v.x ++ ", " ++
      fmtT (some decimals) v.y ++ ", " ++ fmtT (some decimals) v.z ++ ")"
    match f.width with
    | some width => padWith (f.align.getD FmtAlignment.left) width s
    | none => s
  | none =>
    let string := "(" ++ fmtT none v.x ++ ", " ++ fmtT none v.y ++ ", " ++
      fmtT none v.z ++ ")"
    fmtPad f string

/-- The display rule of a Rust integer component: integers render with
`toString` and ignore a precision directive. -/
def intDisplay (prec : Option Nat) (n : Int) : String :=
  match prec with
  | _ => toString n

/-- Left-pad a digit string with zeros to length `p`. -/
def zeroPad (p : Nat) (s : String) : String :=
  if s.length ≥ p then s
  else String.mk (List.replicate (p - s.length) '0') ++ s

/-- Modelled from the spec: the component's own display rule for a
floating-point scalar, represented here as a rational number (the crate
delegates component formatting to the external `std` formatting engine,
which is not part of this repository).  With a requested precision `p` the
value renders with exactly `p` fraction digits (rounding toward zero
suffices for the values exercised here); with no precision an integral
value renders with no fraction digits. -/
def floatDisplay (prec : Option Nat) (q : Rat) : String :=
  match prec with
  | none => if q.den = 1 then toString q.num else toString q
  | some p =>
    let sign := if q.num < 0 then "-" else ""
    let scaled : Nat := q.num.natAbs * 10 ^ p / q.den
    let ip := scaled / 10 ^ p
    let fp := scaled % 10 ^ p
    if p = 0 then sign ++ toString ip
    else sign ++ toString ip ++ "." ++ zeroPad p (toString fp)

/-- C1: for every pair of vectors and every scalar multiplication
`mul : U → T → X` and subtraction on `X`, `cross(self, rhs)` equals the
spec's determinant-expansion formula `out.x = rhs.z*self.y - rhs.y*self.z`,
`out.y = rhs.x*self.z - rhs.z*self.x`, `out.z = rhs.y*self.x - rhs.x*self.y`,
with the right-hand-side component as the left factor of every product
(the types `U` and `T` differ, so the operand order is forced and exact). -/
theorem cross_matches_spec_formula {T U X : Type} (mul : U → T → X)
    (sub : X → X → X) (self : Vector3d T) (rhs : Vector3d U) :
    Vector3d.cross mul sub self rhs = crossSpecFormula mul sub self rhs :=
  rfl

/-- C2: for every pair of vectors, `dot(self, rhs)` equals the bare scalar
`rhs.x * self.x + rhs.y * self.y + rhs.z * self.z`, with the right-hand
vector's component as the left factor of each product and the three products
accumulated left to right. -/
theorem dot_matches_spec_formula {T U X : Type} (mul : U → T → X)
    (add : X → X → X) (self : Vector3d T) (rhs : Vector3d U) :
    Vector3d.dot mul add self rhs = dotSpecFormula mul add self rhs :=
  rfl

/-- C5: for all vectors `a`, `b` over one scalar type `T`,
`add(a,b) = (a.x+b.x, a.y+b.y, a.z+b.z)`, `sub(a,b) = (a.x-b.x, a.y-b.y,
a.z-b.z)` and `neg(a) = (-a.x, -a.y, -a.z)`; each operation's result is
again a `Vector3d T` (visible in the types: `addT, subT : T → T → T` and
`negT : T → T`, as the Rust impls require `Output = T`). -/
theorem add_sub_neg_componentwise {T : Type} (addT subT : T → T → T)
    (negT : T → T) (a b : Vector3d T) :
    Vector3d.add addT a b = addSpecFormula addT a b ∧
    Vector3d.sub subT a b = subSpecFormula subT a b ∧
    Vector3d.neg negT a = negSpecFormula negT a :=
  ⟨rfl, rfl, rfl⟩

/-- C6: for every vector `v` over `T`, scalar `rhs` of a possibly different
type `S` and underlying scalar operations `T → S → X`, `v * rhs =
(v.x*rhs, v.y*rhs, v.z*rhs)` and `v / rhs = (v.x/rhs, v.y/rhs, v.z/rhs)`,
the result component type being whatever `X` the scalar operation produces
and the scalar operand used once per component. -/
theorem mul_div_componentwise {T S X : Type} (mulTS divTS : T → S → X)
    (v : Vector3d T) (rhs : S) :
    Vector3d.mul mulTS v rhs = mulSpecFormula mulTS v rhs ∧
    Vector3d.div divTS v rhs = divSpecFormula divTS v rhs :=
  ⟨rfl, rfl⟩

/-- C7: for every vector `a` and any scalar multiplication and addition at
all (no extra hypotheses), `norm2(a)` equals `x*x + y*y + z*z` and equals
`dot(a, a)`. -/
theorem norm2_eq_formula_and_self_dot {T X : Type} (mul : T → T → X)
    (add : X → X → X) (a : Vector3d T) :
    Vector3d.norm2 mul add a = norm2SpecFormula mul add a ∧
    Vector3d.norm2 mul add a = Vector3d.dot mul add a a :=
  ⟨rfl, rfl⟩

/-- C3: for every vector, indices `0`, `1`, `2` select the `x`, `y`, `z`
component for both reads and writes, and every index `≥ 3` fails fatally
(the modelled panic, `Except.error "Invalid index"`) for both reads and
writes, so no default, clamped or wrapped-around value is ever produced. -/
theorem index_out_of_range_fatal {T : Type} (v : Vector3d T) (k : T)
    (i : Nat) (h : 3 ≤ i) :
    Vector3d.index v 0 = Except.ok v.x ∧
    Vector3d.index v 1 = Except.ok v.y ∧
    Vector3d.index v 2 = Except.ok v.z ∧
    Vector3d.indexSet v 0 k = Except.ok (Vector3d.new k v.y v.z) ∧
    Vector3d.indexSet v 1 k = Except.ok (Vector3d.new v.x k v.z) ∧
    Vector3d.indexSet v 2 k = Except.ok (Vector3d.new v.x v.y k) ∧
    Vector3d.index v i = Except.error "Invalid index" ∧
    Vector3d.indexSet v i k = Except.error "Invalid index" := by
  obtain ⟨n, rfl⟩ : ∃ n, i = n + 3 := ⟨i - 3, by omega⟩
  exact ⟨rfl, rfl, rfl, rfl, rfl, rfl, rfl, rfl⟩

/-- Witness for C3: concrete evaluation at index 5. -/
theorem index_out_of_range_fatal_witness :
    Vector3d.index (Vector3d.new (1 : Int) 2 3) 5 = Except.error "Invalid index" ∧
    Vector3d.indexSet (Vector3d.new (1 : Int) 2 3) 5 7 = Except.error "Invalid index" := by
  have h := index_out_of_range_fatal (Vector3d.new (1 : Int) 2 3) 7 5 (by decide)
  exact ⟨h.2.2.2.2.2.2.1, h.2.2.2.2.2.2.2⟩

/-- C8: reads map `0`, `1`, `2` to `x`, `y`, `z`; writing axis `i` then
reading axis `i` yields the written scalar, and reading either other axis
after the write yields the same value as before the write, for each of the
three axes. -/
theorem index_read_write_frame {T : Type} (v : Vector3d T) (k : T) :
    Vector3d.index v 0 = Except.ok v.x ∧
    Vector3d.index v 1 = Except.ok v.y ∧
    Vector3d.index v 2 = Except.ok v.z ∧
    ((Vector3d.indexSet v 1 k).bind fun w => Vector3d.index w 1) = Except.ok k ∧
    ((Vector3d.indexSet v 1 k).bind fun w => Vector3d.index w 0) = Vector3d.index v 0 ∧
    ((Vector3d.indexSet v 1 k).bind fun w => Vector3d.index w 2) = Vector3d.index v 2 ∧
    ((Vector3d.indexSet v 0 k).bind fun w => Vector3d.index w 0) = Except.ok k ∧
    ((Vector3d.indexSet v 0 k).bind fun w => Vector3d.index w 1) = Vector3d.index v 1 ∧
    ((Vector3d.indexSet v 0 k).bind fun w => Vector3d.index w 2) = Vector3d.index v 2 ∧
    ((Vector3d.indexSet v 2 k).bind fun w => Vector3d.index w 2) = Except.ok k ∧
    ((Vector3d.indexSet v 2 k).bind fun w => Vector3d.index w 0) = Vector3d.index v 0 ∧
    ((Vector3d.indexSet v 2 k).bind fun w => Vector3d.index w 1) = Vector3d.index v 1 :=
  ⟨rfl, rfl, rfl, rfl, rfl, rfl, rfl, rfl, rfl, rfl, rfl, rfl⟩

/-- Counterexample for C4: instantiating the scalar type so that its
empty-iterator sum is `1` while its default value is `0` (both legal for a
Rust type implementing `Sum` and `Default` independently), summing the
empty sequence yields `(1, 1, 1)`, not the default vector `(0, 0, 0)`. -/
theorem sum_empty_not_default_counterexample :
    Vector3d.sumList (fun a b : Int => a + b) 1 [] ≠ Vector3d.default 0 := by
  decide

/-- C4 (amended): summing the empty sequence yields the vector whose every
component is the scalar type's empty-sequence sum — which is the default
(zero) vector exactly when that empty sum is the scalar default; summing a
one-element sequence yields that element unchanged; summing `[v1, v2]`
yields `add(v1, v2)`. -/
theorem sum_fold_amended {T : Type} (addT : T → T → T) (e d : T)
    (v v1 v2 : Vector3d T) :
    Vector3d.sumList addT e [] = Vector3d.new e e e ∧
    (e = d → Vector3d.sumList addT e [] = Vector3d.default d) ∧
    Vector3d.sumList addT e [v] = v ∧
    Vector3d.sumList addT e [v1, v2] = Vector3d.add addT v1 v2 := by
  refine ⟨rfl, ?_, rfl, rfl⟩
  rintro rfl
  rfl

/-- Witness for C4: concrete evaluation over `Int` with empty sum and
default both `0`. -/
theorem sum_fold_amended_witness :
    Vector3d.sumList (fun a b : Int => a + b) 0 [] = Vector3d.default 0 ∧
    Vector3d.sumList (fun a b : Int => a + b) 0
      [Vector3d.new 1 2 3, Vector3d.new 4 5 6] = Vector3d.new 5 7 9 := by
  have h := sum_fold_amended (fun a b : Int => a + b) 0 0
    (Vector3d.new 1 2 3) (Vector3d.new 1 2 3) (Vector3d.new 4 5 6)
  refine ⟨h.2.1 rfl, ?_⟩
  rw [h.2.2.2]
  decide

/-- C10: the empty-sequence sum has every component equal to the scalar
type's own empty-iterator sum `e` (the value of `None.into_iter().sum()`),
and whenever that empty sum differs from the scalar default `d`, the
empty-sequence vector sum differs from the default vector. -/
theorem sum_empty_componentwise_empty_sum {T : Type} (addT : T → T → T)
    (e d : T) :
    Vector3d.sumList addT e [] = Vector3d.new e e e ∧
    (e ≠ d → Vector3d.sumList addT e [] ≠ Vector3d.default d) := by
  refine ⟨rfl, fun hne heq => hne ?_⟩
  exact congrArg Vector3d.x heq

/-- Witness for C10: over `Int`, with empty sum `1` and default `0`. -/
theorem sum_empty_componentwise_empty_sum_witness :
    Vector3d.sumList (fun a b : Int => a + b) 1 ([] : List (Vector3d Int)) =
      Vector3d.new 1 1 1 ∧
    Vector3d.sumList (fun a b : Int => a + b) 1 [] ≠ Vector3d.default 0 :=
  ⟨(sum_empty_componentwise_empty_sum (fun a b : Int => a + b) 1 0).1,
   (sum_empty_componentwise_empty_sum (fun a b : Int => a + b) 1 0).2
     (by decide)⟩

/-- C9: `Display` renders `"(x, y, z)"` from each component's own display
rule; with a requested precision the precision is passed uniformly to all
three components and any width/alignment padding wraps the whole
parenthesized string; concretely, the integer vector `(0,0,0)` renders as
`"(0, 0, 0)"` with no directives, as `"(0, 0, 0) "` with width 10 and
default alignment, as `" (0, 0, 0)"` with width 10 and right alignment, and
the float vector `(0.0,0.0,0.0)` with precision 2 renders as
`"(0.00, 0.00, 0.00)"`. -/
theorem display_spec_cases :
    (∀ (T : Type) (fmtT : Option Nat → T → String) (v : Vector3d T),
      Vector3d.display fmtT ⟨none, none, none⟩ v =
        "(" ++ fmtT none v.x ++ ", " ++ fmtT none v.y ++ ", " ++
          fmtT none v.z ++ ")") ∧
    (∀ (T : Type) (fmtT : Option Nat → T → String) (v : Vector3d T)
        (p width : Nat) (al : Option FmtAlignment),
      Vector3d.display fmtT ⟨some width, al, some p⟩ v =
        padWith (al.getD FmtAlignment.left) width
          ("(" ++ fmtT (some p) v.x ++ ", " ++ fmtT (some p) v.y ++ ", " ++
            fmtT (some p) v.z ++ ")")) ∧
    Vector3d.display intDisplay ⟨none, none, none⟩
      (Vector3d.new (0 : Int) 0 0) = "(0, 0, 0)" ∧
    Vector3d.display intDisplay ⟨some 10, none, none⟩
      (Vector3d.new (0 : Int) 0 0) = "(0, 0, 0) " ∧
    Vector3d.display intDisplay ⟨some 10, some FmtAlignment.right, none⟩
      (Vector3d.new (0 : Int) 0 0) = " (0, 0, 0)" ∧
    Vector3d.display floatDisplay ⟨none, none, some 2⟩
      (Vector3d.new (0 : Rat) 0 0) = "(0.00, 0.00, 0.00)" :=
  ⟨fun _ _ _ => rfl, fun _ _ _ _ _ _ => rfl,
   by decide, by decide, by decide, by decide⟩
